import Mathlib

/-!
Shallow embedding of the ComfyUI-S3 storage nodes (`nodes.py`).

The configuration file on disk is modelled as `FS := Option (Except String Config)`:
`none` when the file is absent, `some (.error e)` when the file exists but its JSON
text fails to parse (with parse error `e`), `some (.ok c)` when it parses to `c`.
Writing a config with `json.dump` followed by re-reading it with `json.load` is the
identity on this representation (a property of the Python standard library).

The S3 service is modelled as an explicit `S3World` (existing buckets plus a map from
(bucket, key) to stored objects); each operation additionally returns the list of
storage-client interactions it performed (`S3Call`), so "no storage call was made"
is a statement about that trace.

PNG encoding/decoding is delegated by the source to Pillow and is lossless on 8-bit
images; a stored object is therefore modelled as the decoded 8-bit image itself.
`ImageOps.exif_transpose` is the identity on images without an EXIF orientation tag
(PNGs written by the save path carry none), and the save path always produces 8-bit
RGB/RGBA data, so the PIL-mode-`I` normalization branch never fires on it; the model
covers the RGB/RGBA decode paths.
-/

/-- Python `s.startswith(p)`, on code points. -/
def strStartsWith (s p : String) : Bool := p.data.isPrefixOf s.data

/-- Python `s[n:]` (drop the first `n` code points). -/
def strDrop (s : String) (n : Nat) : String := String.mk (s.data.drop n)

/-- Python `s.rstrip('/')`: remove every trailing `'/'` character. -/
def rstripSlash (s : String) : String :=
  String.mk ((s.data.reverse.dropWhile (fun c => c == '/')).reverse)

/-- The decimal digit character for `d` (`0 ≤ d ≤ 9`). -/
def digitChar (d : Nat) : Char := Char.ofNat (48 + d)

/-- Decimal representation of a natural number, as Python `str(n)` prints it. -/
def decRepr (n : Nat) : List Char :=
  if n = 0 then ['0'] else ((Nat.digits 10 n).map digitChar).reverse

/-- Python `f-string` formatting `%04d`: decimal, left-padded with zeros to width 4. -/
def pad4 (n : Nat) : String :=
  String.mk (List.replicate (4 - (decRepr n).length) '0' ++ decRepr n)

/-- Model of the module constant `CONFIG_FILE = NODE_DIR / "s3_config.json"`. -/
def CONFIG_FILE : String := "s3_config.json"

/-- One profile of the configuration file (a JSON object; absent keys are `none`).
`displayName` embeds the JSON key `"name"`. -/
structure Profile where
  displayName : Option String
  endpoint : Option String
  access_key : Option String
  secret_key : Option String
  secure : Option Bool
  region : Option String
deriving DecidableEq

/-- The configuration file's parsed content. Python dicts keep insertion order and
have unique keys; profiles are an association list. -/
structure Config where
  profiles : List (String × Profile)
  default_profile : Option String
deriving DecidableEq

/-- File-system state of the config file: absent, or present with a parse outcome. -/
abbrev FS := Option (Except String Config)

/-- The default configuration written by `S3ConfigManager.create_default_config`. -/
def defaultConfig : Config :=
  { profiles :=
      [ ("aws_s3",
         { displayName := some "AWS S3", endpoint := some "s3.amazonaws.com",
           access_key := some "YOUR_AWS_ACCESS_KEY", secret_key := some "YOUR_AWS_SECRET_KEY",
           secure := some true, region := some "us-east-1" }),
        ("minio_local",
         { displayName := some "Local MinIO", endpoint := some "localhost:9000",
           access_key := some "minioadmin", secret_key := some "minioadmin",
           secure := some false, region := some "us-east-1" }),
        ("digitalocean",
         { displayName := some "DigitalOcean Spaces", endpoint := some "nyc3.digitaloceanspaces.com",
           access_key := some "YOUR_DO_ACCESS_KEY", secret_key := some "YOUR_DO_SECRET_KEY",
           secure := some true, region := some "nyc3" }),
        ("backblaze",
         { displayName := some "Backblaze B2", endpoint := some "s3.us-west-004.backblazeb2.com",
           access_key := some "YOUR_B2_KEY_ID", secret_key := some "YOUR_B2_APPLICATION_KEY",
           secure := some true, region := some "us-west-004" }) ],
    default_profile := some "aws_s3" }

/-- `S3ConfigManager.load_config`: create the default file when absent, then read and
parse it; a parse failure is re-raised as `ValueError("Failed to load S3 config …")`.
Returns the new file state together with the outcome. -/
def load_config : FS → FS × Except String Config
  | none => (some (Except.ok defaultConfig), Except.ok defaultConfig)
  | some (Except.ok c) => (some (Except.ok c), Except.ok c)
  | some (Except.error e) =>
      (some (Except.error e),
       Except.error ("Failed to load S3 config from " ++ CONFIG_FILE ++ ": " ++ e))

/-- The per-field validation test of `get_profile`: a field is invalid when it is
missing, falsy (empty string), or still the `YOUR_` placeholder. -/
def invalidField : Option String → Bool
  | none => true
  | some s => s = "" || strStartsWith s "YOUR_"

/-- The `ValueError` message raised for an invalid profile field. -/
def invalidFieldMsg (profile_name field : String) : String :=
  "Profile '" ++ profile_name ++ "' has invalid " ++ field ++ ". Please update " ++ CONFIG_FILE

/-- First-match lookup in the profiles association list (Python `dict` indexing;
keys are unique in a dict, so first match is the match). -/
def lookupProfile (profile_name : String) : List (String × Profile) → Option Profile
  | [] => none
  | (k, p) :: rest => if k = profile_name then some p else lookupProfile profile_name rest

/-- `S3ConfigManager.get_profile`: load the config, look the profile up, and validate
the fields `endpoint`, `access_key`, `secret_key` in that order. -/
def get_profile (fs : FS) (profile_name : String) : FS × Except String Profile :=
  match load_config fs with
  | (fs', Except.error e) => (fs', Except.error e)
  | (fs', Except.ok config) =>
    match lookupProfile profile_name config.profiles with
    | none =>
        (fs', Except.error ("Profile '" ++ profile_name ++ "' not found in config. Available: "
          ++ String.intercalate ", " (config.profiles.map Prod.fst)))
    | some p =>
        if invalidField p.endpoint then (fs', Except.error (invalidFieldMsg profile_name "endpoint"))
        else if invalidField p.access_key then
          (fs', Except.error (invalidFieldMsg profile_name "access_key"))
        else if invalidField p.secret_key then
          (fs', Except.error (invalidFieldMsg profile_name "secret_key"))
        else (fs', Except.ok p)

/-- The constructed Minio client handle (the arguments the source passes to `Minio(...)`). -/
structure MinioClient where
  endpoint : String
  access_key : String
  secret_key : String
  secure : Bool
deriving DecidableEq

/-- `S3Client.create_from_profile`: resolve the profile, strip an `https://`/`http://`
scheme from the endpoint (deriving `secure` from the scheme), else keep the endpoint
and take `secure` from the profile (default `True`). The minio library is modelled as
installed (`MINIO_AVAILABLE`). -/
def create_from_profile (fs : FS) (profile_name : String) :
    FS × Except String (MinioClient × Profile) :=
  match get_profile fs profile_name with
  | (fs', Except.error e) => (fs', Except.error e)
  | (fs', Except.ok p) =>
    let ep0 := p.endpoint.getD ""
    let eps : String × Bool :=
      if strStartsWith ep0 "https://" then (strDrop ep0 8, true)
      else if strStartsWith ep0 "http://" then (strDrop ep0 7, false)
      else (ep0, p.secure.getD true)
    (fs', Except.ok
      ({ endpoint := eps.1, access_key := p.access_key.getD "",
         secret_key := p.secret_key.getD "", secure := eps.2 }, p))

/-- A pixel of the host's float image tensor (one RGB triple; values are exact
rationals standing for the Python floats). -/
abbrev Pixel := ℚ × ℚ × ℚ

/-- The host's `IMAGE` tensor for one image: rows of RGB pixels
(the host convention is a 3-channel `H×W×3` float array). -/
abbrev ImageT := List (List Pixel)

/-- An 8-bit RGB pixel. -/
abbrev Pixel8 := Nat × Nat × Nat

/-- An 8-bit RGB image (rows of pixels). -/
abbrev Image8 := List (List Pixel8)

/-- `np.clip(255.*x, 0, 255).astype(np.uint8)` on one channel value: scale, clamp
to `[0, 255]`, truncate to an integer (truncation = floor on non-negative values). -/
def toU8 (x : ℚ) : Nat := (Int.floor (min (max (255 * x) 0) 255)).toNat

/-- The per-pixel 8-bit conversion of the save path. -/
def pixelToU8 (p : Pixel) : Pixel8 := (toU8 p.1, toU8 p.2.1, toU8 p.2.2)

/-- The whole-image 8-bit conversion `Image.fromarray(np.clip(255.*image, 0, 255)
.astype(np.uint8))` performs. -/
def imageToU8 (img : ImageT) : Image8 := img.map (fun row => row.map pixelToU8)

/-- A stored S3 object, modelled as its decoded PNG content: 8-bit RGB pixel rows
plus an optional 8-bit alpha channel (PNG is lossless on this data). -/
inductive StoredObject where
  | png (pixels : Image8) (alpha : Option (List (List Nat)))
deriving DecidableEq

/-- One storage-client interaction, for stating which storage calls an operation made. -/
inductive S3Call where
  | createClient (profile_name : String)
  | bucketExists (bucket : String)
  | makeBucket (bucket : String) (region : String)
  | putObject (bucket key : String)
  | getObject (bucket key : String)
  | listObjects (bucket pre : String)
deriving DecidableEq

/-- The S3 service state: existing buckets and the stored objects, newest first
(a later `put_object` to the same key shadows the earlier one). -/
structure S3World where
  buckets : List String
  objects : List ((String × String) × StoredObject)
deriving DecidableEq

/-- First-match lookup of a stored object under (bucket, key) — the client's
`get_object`. -/
def lookupObj : List ((String × String) × StoredObject) → String → String →
    Option StoredObject
  | [], _, _ => none
  | (bk, o) :: rest, b, k => if bk = (b, k) then some o else lookupObj rest b k

/-- The client's `put_object`: store the object under (bucket, key). -/
def put_object (w : S3World) (bucket key : String) (o : StoredObject) : S3World :=
  { w with objects := ((bucket, key), o) :: w.objects }

/-- One entry of the JSON result list returned by `save_images`. -/
structure SaveRecord where
  filename : String
  object_key : String
  url : String
  bucket : String
  profile_name : String
  timestamp : String
  batch_number : Nat
deriving DecidableEq

/-- `f"{filename_prefix}_{timestamp}_{batch_number:04d}.png"` (the parameter
`fnpre` embeds the source's `filename_prefix`). -/
def mkFilename (fnpre timestamp : String) (batch_number : Nat) : String :=
  fnpre ++ "_" ++ timestamp ++ "_" ++ pad4 batch_number ++ ".png"

/-- `f"{prefix.rstrip('/')}/{filename}"` (the parameter `pre` embeds the source's
`prefix`). -/
def mkObjectKey (pre filename : String) : String := rstripSlash pre ++ "/" ++ filename

/-- The public URL `save_images` reports for one uploaded object. -/
def mkUrl (pconf : Profile) (bucket key : String) : String :=
  let endpoint := pconf.endpoint.getD ""
  let secure := pconf.secure.getD true
  let protocol := if secure then "https" else "http"
  if !(strStartsWith endpoint "http://" || strStartsWith endpoint "https://") then
    protocol ++ "://" ++ endpoint ++ "/" ++ bucket ++ "/" ++ key
  else endpoint ++ "/" ++ bucket ++ "/" ++ key

/-- The `for batch_number, image in enumerate(images)` loop of `save_images`:
encode each image to PNG, upload it under its timestamped batch-indexed key, and
collect the result records. Returns (world, storage calls, records). -/
def save_loop (profile_name bucket pre fnpre timestamp : String) (pconf : Profile) :
    List ImageT → Nat → S3World → S3World × List S3Call × List SaveRecord
  | [], _, w => (w, [], [])
  | img :: rest, batch_number, w =>
    let filename := mkFilename fnpre timestamp batch_number
    let key := mkObjectKey pre filename
    let w' := put_object w bucket key (StoredObject.png (imageToU8 img) none)
    let r : SaveRecord :=
      { filename := filename, object_key := key, url := mkUrl pconf bucket key,
        bucket := bucket, profile_name := profile_name, timestamp := timestamp,
        batch_number := batch_number }
    let out := save_loop profile_name bucket pre fnpre timestamp pconf rest (batch_number + 1) w'
    (out.1, S3Call.putObject bucket key :: out.2.1, r :: out.2.2)

/-- Everything `save_images` leaves behind: the file state (the config may have been
created), the storage state, the storage calls made, and the returned value
(`json.dumps` of the records; the standard-library serializer is modelled as the
record list itself) or the raised `ValueError`. -/
structure SaveOut where
  fs : FS
  world : S3World
  calls : List S3Call
  result : Except String (List SaveRecord)

/-- `SaveImageToS3.save_images`. `timestamp` stands for the single
`datetime.now().strftime("%Y%m%d_%H%M%S")` taken once per call; `pre`/`fnpre` embed
`prefix`/`filename_prefix`. -/
def save_images (fs : FS) (w : S3World) (images : List ImageT)
    (profile_name bucket pre fnpre custom_region timestamp : String) : SaveOut :=
  if bucket = "" then
    { fs := fs, world := w, calls := [], result := Except.error "Bucket name is required" }
  else
    match create_from_profile fs profile_name with
    | (fs', Except.error e) =>
        { fs := fs', world := w, calls := [],
          result := Except.error ("Failed to save images: " ++ e) }
    | (fs', Except.ok (_, pconf)) =>
      let region := if custom_region = "" then pconf.region.getD "us-east-1" else custom_region
      let wb : S3World × List S3Call :=
        if bucket ∈ w.buckets then (w, [S3Call.bucketExists bucket])
        else ({ w with buckets := bucket :: w.buckets },
              [S3Call.bucketExists bucket, S3Call.makeBucket bucket region])
      let out := save_loop profile_name bucket pre fnpre timestamp pconf images 0 wb.1
      { fs := fs', world := out.1,
        calls := S3Call.createClient profile_name :: wb.2 ++ out.2.1,
        result := Except.ok out.2.2 }

/-- Everything `load_image` produces: file state, storage calls, and the returned
(image tensor, mask) pair or the raised `ValueError`. The world is read-only here. -/
structure LoadOut where
  fs : FS
  calls : List S3Call
  result : Except String (List (List Pixel) × List (List ℚ))

/-- `LoadImageFromS3.load_image`: fetch the object, decode it, build the inverted
alpha mask (all-zero `height × width` when there is no alpha band), and normalize
the RGB data to floats in `[0, 1]`. -/
def load_image (fs : FS) (w : S3World) (profile_name bucket object_key : String) : LoadOut :=
  if bucket = "" || object_key = "" then
    { fs := fs, calls := [], result := Except.error "Bucket and object key are required" }
  else
    match create_from_profile fs profile_name with
    | (fs', Except.error e) =>
        { fs := fs', calls := [], result := Except.error ("Failed to load image: " ++ e) }
    | (fs', Except.ok _) =>
      match lookupObj w.objects bucket object_key with
      | none =>
          { fs := fs', calls := [S3Call.createClient profile_name,
                                 S3Call.getObject bucket object_key],
            result := Except.error ("S3 Error: " ++ object_key ++ " does not exist") }
      | some (StoredObject.png pixels alpha) =>
        let h := pixels.length
        let wd := (pixels.headD []).length
        let mask : List (List ℚ) :=
          match alpha with
          | some a => a.map (fun row => row.map (fun v => 1 - (v : ℚ) / 255))
          | none => List.replicate h (List.replicate wd (0 : ℚ))
        let image : List (List Pixel) :=
          pixels.map (fun row => row.map
            (fun p => ((p.1 : ℚ) / 255, (p.2.1 : ℚ) / 255, (p.2.2 : ℚ) / 255)))
        { fs := fs', calls := [S3Call.createClient profile_name,
                               S3Call.getObject bucket object_key],
          result := Except.ok (image, mask) }

/-- What the client's `list_objects` yields for one object (`last_modified` is a
datetime or `None`). -/
structure DateTimeM where
  iso : String
deriving DecidableEq

/-- One object's metadata as enumerated by the storage client. -/
structure ObjStat where
  object_name : String
  size : Nat
  last_modified : Option DateTimeM
  etag : String
deriving DecidableEq

/-- One entry of the JSON list returned by `list_objects` (`last_modified` as an
ISO string or `null`). -/
structure ObjRecord where
  object_name : String
  size : Nat
  last_modified : Option String
  etag : String
deriving DecidableEq

/-- The dict built for one enumerated object. -/
def toRecord (o : ObjStat) : ObjRecord :=
  { object_name := o.object_name, size := o.size,
    last_modified := o.last_modified.map DateTimeM.iso, etag := o.etag }

/-- The `for obj in objects` loop of `list_objects` with its
`if count >= max_objects: break` cap. -/
def list_loop (max_objects : Nat) : List ObjStat → Nat → List ObjRecord
  | [], _ => []
  | o :: rest, count =>
    if max_objects ≤ count then []
    else toRecord o :: list_loop max_objects rest (count + 1)

/-- Everything `list_objects` produces. -/
structure ListOut where
  fs : FS
  calls : List S3Call
  result : Except String (List ObjRecord)

/-- `ListS3Objects.list_objects`. `enum` is the sequence of objects the client
enumerates under the given bucket and prefix (`pre`); the returned JSON string is
modelled as the record list `json.dumps` serializes. -/
def list_objects (fs : FS) (enum : List ObjStat)
    (profile_name bucket pre : String) (max_objects : Nat) : ListOut :=
  if bucket = "" then
    { fs := fs, calls := [], result := Except.error "Bucket name is required" }
  else
    match create_from_profile fs profile_name with
    | (fs', Except.error e) =>
        { fs := fs', calls := [], result := Except.error ("Failed to list objects: " ++ e) }
    | (fs', Except.ok _) =>
        { fs := fs', calls := [S3Call.createClient profile_name,
                               S3Call.listObjects bucket pre],
          result := Except.ok (list_loop max_objects enum 0) }

/-- One entry of the `"profiles"` list in the Config-Info report. -/
structure ProfileInfo where
  profile_name : String
  display_name : String
  endpoint : String
  configured : Bool
deriving DecidableEq

/-- The full Config-Info report (`json.dumps` of this dict is the node's output). -/
structure ConfigInfoReport where
  config_file_path : String
  config_exists : Bool
  profiles : List ProfileInfo
  instructions : List String
deriving DecidableEq

/-- The per-profile summary Config-Info builds: `configured` is false exactly when
one of the credential fields (defaulting to `""` if absent) starts with `YOUR_`. -/
def profileInfoOf (profile_name : String) (p : Profile) : ProfileInfo :=
  { profile_name := profile_name,
    display_name := p.displayName.getD profile_name,
    endpoint := p.endpoint.getD "",
    configured := !(strStartsWith (p.access_key.getD "") "YOUR_"
                    || strStartsWith (p.secret_key.getD "") "YOUR_") }

/-- `S3ConfigInfo.get_config_info`: result typed in the error monad to reflect that
Python could raise here, and proved never to; a parse failure is caught and embedded
in the `instructions`. The `refresh` input is unused by the source. -/
def get_config_info (fs : FS) : Except String ConfigInfoReport :=
  match fs with
  | none =>
      Except.ok { config_file_path := CONFIG_FILE, config_exists := false, profiles := [],
                  instructions :=
                    [ "Config file not found at: " ++ CONFIG_FILE,
                      "A default config will be created on first use",
                      "Edit the generated file with your S3 credentials" ] }
  | some r =>
    match (load_config (some r)).2 with
    | Except.error e =>
        Except.ok { config_file_path := CONFIG_FILE, config_exists := true, profiles := [],
                    instructions :=
                      [ "Config file exists but has errors: " ++ e,
                        "Please check the JSON syntax" ] }
    | Except.ok config =>
        Except.ok { config_file_path := CONFIG_FILE, config_exists := true,
                    profiles := config.profiles.map (fun np => profileInfoOf np.1 np.2),
                    instructions :=
                      [ "Config file found at: " ++ CONFIG_FILE,
                        "Found " ++ toString config.profiles.length ++ " profile(s)",
                        "Edit the config file to add your S3 credentials",
                        "Replace 'YOUR_*' placeholders with actual values" ] }

/-- The 8-bit quantization the save-then-load pipeline applies to one channel value:
encode to a byte, decode back to a float in `[0, 1]`. -/
def quantChan (x : ℚ) : ℚ := (toU8 x : ℚ) / 255

/-- Per-pixel quantization of the save-then-load pipeline. -/
def quantPixel (p : Pixel) : Pixel := (quantChan p.1, quantChan p.2.1, quantChan p.2.2)

/-- Whole-image quantization of the save-then-load pipeline. -/
def quantImage (img : ImageT) : ImageT := img.map (fun row => row.map quantPixel)

/-- A channel value lying exactly on the 8-bit grid (`k/255` for some `0 ≤ k ≤ 255`). -/
def isGrid (x : ℚ) : Prop := ∃ k : ℕ, k ≤ 255 ∧ x = (k : ℚ) / 255

/-- A pixel all of whose channels lie on the 8-bit grid. -/
def gridPixel (p : Pixel) : Prop := isGrid p.1 ∧ isGrid p.2.1 ∧ isGrid p.2.2

/-- The client value `create_from_profile` builds for a valid profile (proof-side
name for the factory's endpoint normalization). -/
def clientOf (p : Profile) : MinioClient :=
  let ep0 := p.endpoint.getD ""
  let eps : String × Bool :=
    if strStartsWith ep0 "https://" then (strDrop ep0 8, true)
    else if strStartsWith ep0 "http://" then (strDrop ep0 7, false)
    else (ep0, p.secure.getD true)
  { endpoint := eps.1, access_key := p.access_key.getD "",
    secret_key := p.secret_key.getD "", secure := eps.2 }

/-- The result record `save_images` builds for batch index `j` (proof-side name). -/
def saveRecordAt (pn b pre fnpre ts : String) (pconf : Profile) (j : Nat) : SaveRecord :=
  { filename := mkFilename fnpre ts j,
    object_key := mkObjectKey pre (mkFilename fnpre ts j),
    url := mkUrl pconf b (mkObjectKey pre (mkFilename fnpre ts j)),
    bucket := b, profile_name := pn, timestamp := ts, batch_number := j }

/-- The numeric value of a decimal digit character (inverse of `digitChar`). -/
def charDigit (c : Char) : Nat := c.toNat - 48

/-- The number a decimal character string denotes (most significant digit first). -/
def decVal (cs : List Char) : Nat := Nat.ofDigits 10 ((cs.map charDigit).reverse)

/-- A fully configured test profile, for concrete instantiations. -/
def tProfile : Profile :=
  { displayName := some "Test", endpoint := some "ep.example", access_key := some "AK",
    secret_key := some "SK", secure := some true, region := some "r1" }

/-- A well-formed test configuration holding only `tProfile` under the name `"p"`. -/
def tConfig : Config := { profiles := [("p", tProfile)], default_profile := some "p" }

/-- A present, well-formed config file holding `tConfig`. -/
def tFS : FS := some (Except.ok tConfig)

/-- The empty storage world. -/
def emptyWorld : S3World := { buckets := [], objects := [] }

/-- A profile whose access key still holds a placeholder value. -/
def tBadProfile : Profile :=
  { displayName := none, endpoint := some "ep", access_key := some "YOUR_KEY",
    secret_key := some "sk", secure := none, region := none }

/-- A config holding only `tBadProfile` under the name `"bad"`. -/
def tBadConfig : Config := { profiles := [("bad", tBadProfile)], default_profile := none }

/-- A profile whose `access_key` field is missing entirely. -/
def tMissingProfile : Profile :=
  { displayName := some "M", endpoint := some "ep", access_key := none,
    secret_key := some "sk", secure := none, region := none }

/-- A config holding only `tMissingProfile` under the name `"m"`. -/
def tMissingConfig : Config :=
  { profiles := [("m", tMissingProfile)], default_profile := none }

/-- A 1×1 image whose channel value 1/2 does not lie on the 8-bit grid. -/
def cimg : ImageT := [[((1 : ℚ) / 2, (1 : ℚ) / 2, (1 : ℚ) / 2)]]

/-- A 1×1 image whose channel values all lie on the 8-bit grid. -/
def gimg : ImageT := [[((0 : ℚ), (1 : ℚ), (128 : ℚ) / 255)]]

/-- Three enumerated objects, for concrete listing instantiations. -/
def tEnum : List ObjStat :=
  [ { object_name := "a.png", size := 10, last_modified := some { iso := "2024-01-01T00:00:00" },
      etag := "e1" },
    { object_name := "b.png", size := 20, last_modified := none, etag := "e2" },
    { object_name := "c.png", size := 30, last_modified := some { iso := "2024-01-02T00:00:00" },
      etag := "e3" } ]

theorem charDigit_digitChar {d : Nat} (hd : d < 10) : charDigit (digitChar d) = d := by
  interval_cases d <;> rfl

theorem decVal_decRepr (n : Nat) : decVal (decRepr n) = n := by
  by_cases h : n = 0
  · subst h; rfl
  · unfold decVal decRepr
    rw [if_neg h, List.map_reverse, List.reverse_reverse, List.map_map]
    have hmap : (Nat.digits 10 n).map (charDigit ∘ digitChar) = (Nat.digits 10 n).map id :=
      List.map_congr_left (fun d hdmem =>
        charDigit_digitChar (Nat.digits_lt_base (by norm_num) hdmem))
    rw [hmap, List.map_id, Nat.ofDigits_digits]

theorem ofDigits_replicate_zero (k : Nat) : Nat.ofDigits 10 (List.replicate k (0 : Nat)) = 0 := by
  induction k with
  | zero => rfl
  | succ m ih => simp [List.replicate_succ, Nat.ofDigits_cons, ih]

theorem decVal_pad4 (n : Nat) : decVal (pad4 n).data = n := by
  show decVal (List.replicate (4 - (decRepr n).length) '0' ++ decRepr n) = n
  unfold decVal
  rw [List.map_append, List.reverse_append]
  have hz : (List.replicate (4 - (decRepr n).length) '0').map charDigit
      = List.replicate (4 - (decRepr n).length) 0 := by
    rw [List.map_replicate]; rfl
  rw [hz, List.reverse_replicate, Nat.ofDigits_append, ofDigits_replicate_zero]
  have hval : Nat.ofDigits 10 (((decRepr n).map charDigit).reverse) = n := decVal_decRepr n
  omega

theorem pad4_injective : Function.Injective pad4 := by
  intro m n h
  have := congrArg (fun s => decVal s.data) h
  simpa [decVal_pad4] using this

theorem str_append_cancel_left {a b c : String} (h : a ++ b = a ++ c) : b = c := by
  have hd : a.data ++ b.data = a.data ++ c.data := by
    have := congrArg String.data h
    rwa [String.data_append, String.data_append] at this
  have hbc := List.append_cancel_left hd
  cases b; cases c; exact congrArg String.mk hbc

theorem str_append_cancel_right {a b c : String} (h : a ++ c = b ++ c) : a = b := by
  have hd : a.data ++ c.data = b.data ++ c.data := by
    have := congrArg String.data h
    rwa [String.data_append, String.data_append] at this
  have hab := List.append_cancel_right hd
  cases a; cases b; exact congrArg String.mk hab

theorem mkFilename_inj {fnpre ts : String} {i j : Nat}
    (h : mkFilename fnpre ts i = mkFilename fnpre ts j) : i = j := by
  unfold mkFilename at h
  have h1 : fnpre ++ "_" ++ ts ++ "_" ++ pad4 i = fnpre ++ "_" ++ ts ++ "_" ++ pad4 j :=
    str_append_cancel_right h
  have h2 : pad4 i = pad4 j := str_append_cancel_left h1
  exact pad4_injective h2

theorem mkObjectKey_inj {pre fnpre ts : String} {i j : Nat}
    (h : mkObjectKey pre (mkFilename fnpre ts i) = mkObjectKey pre (mkFilename fnpre ts j)) :
    i = j := by
  unfold mkObjectKey at h
  exact mkFilename_inj (str_append_cancel_left h)

theorem mkObjectKey_ne_empty (pre filename : String) : mkObjectKey pre filename ≠ "" := by
  intro h
  have := congrArg String.data h
  simp [mkObjectKey, String.data_append] at this

theorem save_loop_buckets (pn b pre fnpre ts : String) (pc : Profile) (imgs : List ImageT)
    (n : Nat) (w : S3World) :
    (save_loop pn b pre fnpre ts pc imgs n w).1.buckets = w.buckets := by
  induction imgs generalizing n w with
  | nil => rfl
  | cons img rest ih => simp [save_loop, ih, put_object]

theorem save_loop_recs (pn b pre fnpre ts : String) (pc : Profile) (imgs : List ImageT)
    (n : Nat) (w : S3World) :
    (save_loop pn b pre fnpre ts pc imgs n w).2.2
      = (List.range imgs.length).map (fun j => saveRecordAt pn b pre fnpre ts pc (n + j)) := by
  induction imgs generalizing n w with
  | nil => rfl
  | cons img rest ih =>
    simp only [save_loop, ih, List.length_cons, List.range_succ_eq_map, List.map_cons,
      List.map_map, Nat.add_zero, List.cons.injEq]
    refine ⟨rfl, ?_⟩
    · apply List.map_congr_left
      intro j _
      simp only [Function.comp_apply]
      exact congrArg (saveRecordAt pn b pre fnpre ts pc) (by omega)

theorem save_loop_lookup_of_ne {pn b pre fnpre ts : String} {pc : Profile} {b2 k2 : String}
    {imgs : List ImageT} {n : Nat} {w : S3World}
    (h : ∀ j, j < imgs.length → (b2, k2) ≠ (b, mkObjectKey pre (mkFilename fnpre ts (n + j)))) :
    lookupObj (save_loop pn b pre fnpre ts pc imgs n w).1.objects b2 k2
      = lookupObj w.objects b2 k2 := by
  induction imgs generalizing n w with
  | nil => rfl
  | cons img rest ih =>
    have h0 : (b2, k2) ≠ (b, mkObjectKey pre (mkFilename fnpre ts n)) := by
      have := h 0 (by simp)
      rwa [Nat.add_zero] at this
    have hrest : ∀ j, j < rest.length →
        (b2, k2) ≠ (b, mkObjectKey pre (mkFilename fnpre ts (n + 1 + j))) := by
      intro j hj
      have := h (j + 1) (by simpa using Nat.succ_lt_succ hj)
      rwa [show n + (j + 1) = n + 1 + j by omega] at this
    simp only [save_loop]
    rw [ih hrest]
    simp [put_object, lookupObj, Ne.symm h0]

theorem save_loop_lookup_self (pn b pre fnpre ts : String) (pc : Profile) (imgs : List ImageT)
    (n : Nat) (w : S3World) (i : Nat) (hi : i < imgs.length) :
    lookupObj (save_loop pn b pre fnpre ts pc imgs n w).1.objects b
        (mkObjectKey pre (mkFilename fnpre ts (n + i)))
      = some (StoredObject.png (imageToU8 (imgs.get ⟨i, hi⟩)) none) := by
  induction imgs generalizing n w i with
  | nil => exact absurd hi (by simp)
  | cons img rest ih =>
    cases i with
    | zero =>
      simp only [save_loop]
      have hne : ∀ j, j < rest.length →
          (b, mkObjectKey pre (mkFilename fnpre ts (n + 0)))
            ≠ (b, mkObjectKey pre (mkFilename fnpre ts (n + 1 + j))) := by
        intro j hj heq
        have hk : mkObjectKey pre (mkFilename fnpre ts (n + 0))
            = mkObjectKey pre (mkFilename fnpre ts (n + 1 + j)) := by
          simpa using congrArg Prod.snd heq
        have := mkObjectKey_inj hk
        omega
      rw [save_loop_lookup_of_ne hne]
      simp [put_object, lookupObj, Nat.add_zero]
    | succ j =>
      have hj : j < rest.length := by simpa using Nat.lt_of_succ_lt_succ hi
      simp only [save_loop]
      have := ih (n + 1)
        (put_object w b (mkObjectKey pre (mkFilename fnpre ts n))
          (StoredObject.png (imageToU8 img) none)) j hj
      rw [show n + (j + 1) = n + 1 + j by omega]
      exact this

theorem get_profile_ok {fs : FS} {config : Config} {pn : String} {p : Profile}
    (hfs : fs = some (Except.ok config))
    (hlk : lookupProfile pn config.profiles = some p)
    (h1 : invalidField p.endpoint = false) (h2 : invalidField p.access_key = false)
    (h3 : invalidField p.secret_key = false) :
    get_profile fs pn = (fs, Except.ok p) := by
  subst hfs
  simp [get_profile, load_config, hlk, h1, h2, h3]

theorem create_from_profile_ok {fs : FS} {config : Config} {pn : String} {p : Profile}
    (hfs : fs = some (Except.ok config))
    (hlk : lookupProfile pn config.profiles = some p)
    (h1 : invalidField p.endpoint = false) (h2 : invalidField p.access_key = false)
    (h3 : invalidField p.secret_key = false) :
    create_from_profile fs pn = (fs, Except.ok (clientOf p, p)) := by
  simp [create_from_profile, get_profile_ok hfs hlk h1 h2 h3, clientOf]

theorem save_images_fs {fs : FS} {config : Config} {pn : String} {p : Profile}
    (hfs : fs = some (Except.ok config))
    (hlk : lookupProfile pn config.profiles = some p)
    (h1 : invalidField p.endpoint = false) (h2 : invalidField p.access_key = false)
    (h3 : invalidField p.secret_key = false)
    {b : String} (hb : b ≠ "") (w : S3World) (imgs : List ImageT) (pre fnpre cr ts : String) :
    (save_images fs w imgs pn b pre fnpre cr ts).fs = fs := by
  have hc := create_from_profile_ok hfs hlk h1 h2 h3
  by_cases hbm : b ∈ w.buckets <;> simp [save_images, hb, hc, hbm]

theorem save_images_result {fs : FS} {config : Config} {pn : String} {p : Profile}
    (hfs : fs = some (Except.ok config))
    (hlk : lookupProfile pn config.profiles = some p)
    (h1 : invalidField p.endpoint = false) (h2 : invalidField p.access_key = false)
    (h3 : invalidField p.secret_key = false)
    {b : String} (hb : b ≠ "") (w : S3World) (imgs : List ImageT) (pre fnpre cr ts : String) :
    (save_images fs w imgs pn b pre fnpre cr ts).result
      = Except.ok ((List.range imgs.length).map (fun j => saveRecordAt pn b pre fnpre ts p j)) := by
  have hc := create_from_profile_ok hfs hlk h1 h2 h3
  by_cases hbm : b ∈ w.buckets <;>
    simp [save_images, hb, hc, hbm, save_loop_recs, Nat.zero_add]

theorem save_images_lookup {fs : FS} {config : Config} {pn : String} {p : Profile}
    (hfs : fs = some (Except.ok config))
    (hlk : lookupProfile pn config.profiles = some p)
    (h1 : invalidField p.endpoint = false) (h2 : invalidField p.access_key = false)
    (h3 : invalidField p.secret_key = false)
    {b : String} (hb : b ≠ "") (w : S3World) (imgs : List ImageT) (pre fnpre cr ts : String)
    (i : Nat) (hi : i < imgs.length) :
    lookupObj (save_images fs w imgs pn b pre fnpre cr ts).world.objects b
        (mkObjectKey pre (mkFilename fnpre ts i))
      = some (StoredObject.png (imageToU8 (imgs.get ⟨i, hi⟩)) none) := by
  have hc := create_from_profile_ok hfs hlk h1 h2 h3
  by_cases hbm : b ∈ w.buckets
  · have := save_loop_lookup_self pn b pre fnpre ts p imgs 0 w i hi
    rw [Nat.zero_add] at this
    simpa [save_images, hb, hc, hbm] using this
  · have := save_loop_lookup_self pn b pre fnpre ts p imgs 0
      { w with buckets := b :: w.buckets } i hi
    rw [Nat.zero_add] at this
    simpa [save_images, hb, hc, hbm] using this

theorem load_image_png {fs : FS} {config : Config} {pn : String} {p : Profile}
    (hfs : fs = some (Except.ok config))
    (hlk : lookupProfile pn config.profiles = some p)
    (h1 : invalidField p.endpoint = false) (h2 : invalidField p.access_key = false)
    (h3 : invalidField p.secret_key = false)
    {w : S3World} {b k : String} {px : Image8} {al : Option (List (List Nat))}
    (hb : b ≠ "") (hk : k ≠ "")
    (hobj : lookupObj w.objects b k = some (StoredObject.png px al)) :
    load_image fs w pn b k
      = { fs := fs,
          calls := [S3Call.createClient pn, S3Call.getObject b k],
          result := Except.ok
            (px.map (fun row => row.map
              (fun q => ((q.1 : ℚ) / 255, (q.2.1 : ℚ) / 255, (q.2.2 : ℚ) / 255))),
             match al with
             | some a => a.map (fun row => row.map (fun v => 1 - (v : ℚ) / 255))
             | none => List.replicate px.length
                 (List.replicate ((px.headD []).length) (0 : ℚ))) } := by
  have hc := create_from_profile_ok hfs hlk h1 h2 h3
  simp [load_image, hb, hk, hc, hobj]
  cases al <;> rfl

theorem imageToU8_length (img : ImageT) : (imageToU8 img).length = img.length :=
  List.length_map img _

theorem imageToU8_headD_length (img : ImageT) :
    ((imageToU8 img).headD []).length = (img.headD []).length := by
  cases img with
  | nil => rfl
  | cons row rest => simp [imageToU8]

theorem imageToU8_decode (img : ImageT) :
    (imageToU8 img).map (fun row => row.map
        (fun q => ((q.1 : ℚ) / 255, (q.2.1 : ℚ) / 255, (q.2.2 : ℚ) / 255)))
      = quantImage img := by
  simp [imageToU8, quantImage, List.map_map, quantPixel, quantChan, pixelToU8, Function.comp]

theorem save_load_roundtrip {fs : FS} {config : Config} {pn : String} {p : Profile}
    (hfs : fs = some (Except.ok config))
    (hlk : lookupProfile pn config.profiles = some p)
    (h1 : invalidField p.endpoint = false) (h2 : invalidField p.access_key = false)
    (h3 : invalidField p.secret_key = false)
    {b : String} (hb : b ≠ "") (w : S3World) (imgs : List ImageT) (pre fnpre cr ts : String)
    (i : Nat) (hi : i < imgs.length) :
    (load_image (save_images fs w imgs pn b pre fnpre cr ts).fs
        (save_images fs w imgs pn b pre fnpre cr ts).world pn b
        (mkObjectKey pre (mkFilename fnpre ts i))).result
      = Except.ok (quantImage (imgs.get ⟨i, hi⟩),
          List.replicate (imgs.get ⟨i, hi⟩).length
            (List.replicate ((imgs.get ⟨i, hi⟩).headD []).length (0 : ℚ))) := by
  rw [save_images_fs hfs hlk h1 h2 h3 hb w imgs pre fnpre cr ts]
  have hobj := save_images_lookup hfs hlk h1 h2 h3 hb w imgs pre fnpre cr ts i hi
  rw [load_image_png hfs hlk h1 h2 h3 hb (mkObjectKey_ne_empty pre (mkFilename fnpre ts i)) hobj]
  simp only [imageToU8_decode, imageToU8_length, imageToU8_headD_length]

theorem quantChan_grid {x : ℚ} (hx : isGrid x) : quantChan x = x := by
  obtain ⟨k, hk, rfl⟩ := hx
  have h255 : (255 : ℚ) ≠ 0 := by norm_num
  have hmul : (255 : ℚ) * ((k : ℚ) / 255) = (k : ℚ) := by field_simp
  have hmax : max ((255 : ℚ) * ((k : ℚ) / 255)) 0 = (k : ℚ) := by
    rw [hmul]; exact max_eq_left (by positivity)
  have hmin : min ((k : ℚ)) 255 = (k : ℚ) := min_eq_left (by exact_mod_cast hk)
  have hto : toU8 ((k : ℚ) / 255) = k := by
    unfold toU8
    rw [hmax, hmin]
    rw [show ((k : ℚ) : ℚ) = ((k : ℤ) : ℚ) by push_cast; ring, Int.floor_intCast]
    exact Int.toNat_natCast k
  unfold quantChan
  rw [hto]

theorem quantPixel_grid {q : Pixel} (hq : gridPixel q) : quantPixel q = q := by
  obtain ⟨hr, hg, hb⟩ := hq
  obtain ⟨r, g, b⟩ := q
  simp only [quantPixel, quantChan_grid hr, quantChan_grid hg, quantChan_grid hb]

theorem quantRow_grid {row : List Pixel}
    (h : ∀ q ∈ row, gridPixel q) : row.map quantPixel = row := by
  induction row with
  | nil => rfl
  | cons q rest ih =>
    have hq := quantPixel_grid (h q (by simp))
    have hrest := ih (fun r hr => h r (by simp [hr]))
    simp [hq, hrest]

theorem quantImage_grid {img : ImageT}
    (h : ∀ row ∈ img, ∀ q ∈ row, gridPixel q) : quantImage img = img := by
  induction img with
  | nil => rfl
  | cons row rest ih =>
    have hrow := quantRow_grid (h row (by simp))
    have hrest := ih (fun r hr q hq => h r (by simp [hr]) q hq)
    simpa [quantImage, hrow] using hrest

theorem lookupProfile_mem {pn : String} {l : List (String × Profile)} {p : Profile}
    (h : lookupProfile pn l = some p) : (pn, p) ∈ l := by
  induction l with
  | nil => exact absurd h (by simp [lookupProfile])
  | cons kp rest ih =>
    obtain ⟨k, q⟩ := kp
    simp only [lookupProfile] at h
    by_cases hk : k = pn
    · rw [if_pos hk] at h
      subst hk
      cases h
      exact List.mem_cons_self _ _
    · rw [if_neg hk] at h
      exact List.mem_cons_of_mem _ (ih h)

theorem list_loop_take (K : Nat) (objs : List ObjStat) (c : Nat) :
    list_loop K objs c = ((objs.take (K - c)).map toRecord) := by
  induction objs generalizing c with
  | nil => simp [list_loop]
  | cons o rest ih =>
    by_cases hc : K ≤ c
    · have : K - c = 0 := by omega
      simp [list_loop, hc, this]
    · have : K - c = (K - (c + 1)) + 1 := by omega
      rw [this]
      simp [list_loop, hc, ih (c + 1)]

/-- C7: when the configuration file is absent, loading it creates a file holding
exactly the four documented default profiles (aws_s3, minio_local, digitalocean,
backblaze) with aws_s3 as the default profile, and the load itself does not throw. -/
theorem c7_missing_config_creates_defaults :
    load_config none = (some (Except.ok defaultConfig), Except.ok defaultConfig)
    ∧ defaultConfig.profiles.map Prod.fst = ["aws_s3", "minio_local", "digitalocean", "backblaze"]
    ∧ defaultConfig.default_profile = some "aws_s3" :=
  ⟨rfl, rfl, rfl⟩

/-- C8: Save called with an empty bucket, and Load called with an empty bucket or
empty object key, fail with a descriptive error before any storage client is
constructed or any storage call is made: the call trace is empty and the file and
world states are untouched. -/
theorem c8_empty_inputs_fail_before_storage :
    (∀ (fs : FS) (w : S3World) (imgs : List ImageT) (pn pre fnpre cr ts : String),
      save_images fs w imgs pn "" pre fnpre cr ts
        = { fs := fs, world := w, calls := [],
            result := Except.error "Bucket name is required" })
    ∧ (∀ (fs : FS) (w : S3World) (pn b k : String), b = "" ∨ k = "" →
      load_image fs w pn b k
        = { fs := fs, calls := [],
            result := Except.error "Bucket and object key are required" }) := by
  constructor
  · intro fs w imgs pn pre fnpre cr ts
    simp [save_images]
  · intro fs w pn b k h
    rcases h with rfl | rfl
    · simp [load_image]
    · simp [load_image]

/-- Witness for C8: concrete empty-bucket save and empty-key load. -/
theorem c8_empty_inputs_fail_before_storage_witness :
    save_images tFS emptyWorld [] "p" "" "k" "image" "" "ts"
      = { fs := tFS, world := emptyWorld, calls := [],
          result := Except.error "Bucket name is required" }
    ∧ load_image tFS emptyWorld "p" "b" ""
      = { fs := tFS, calls := [],
          result := Except.error "Bucket and object key are required" } :=
  ⟨c8_empty_inputs_fail_before_storage.1 tFS emptyWorld [] "p" "k" "image" "" "ts",
   c8_empty_inputs_fail_before_storage.2 tFS emptyWorld "p" "b" "" (Or.inr rfl)⟩

/-- C5: Config-Info returns a report for every file state — absent, well-formed, or
malformed — and never raises; on a malformed file the parse error text is embedded
in the report's instructions instead of being thrown. -/
theorem c5_config_info_never_raises (fs : FS) :
    (∃ r, get_config_info fs = Except.ok r)
    ∧ ∀ e, fs = some (Except.error e) →
        get_config_info fs = Except.ok
          { config_file_path := CONFIG_FILE, config_exists := true, profiles := [],
            instructions :=
              [ "Config file exists but has errors: Failed to load S3 config from "
                  ++ CONFIG_FILE ++ ": " ++ e,
                "Please check the JSON syntax" ] } := by
  constructor
  · cases fs with
    | none => exact ⟨_, rfl⟩
    | some r =>
      cases r with
      | ok c => exact ⟨_, rfl⟩
      | error e => exact ⟨_, rfl⟩
  · intro e he
    subst he
    rfl

/-- Witness for C5 at a concretely malformed configuration file. -/
theorem c5_config_info_never_raises_witness :
    get_config_info (some (Except.error "bad json")) = Except.ok
      { config_file_path := CONFIG_FILE, config_exists := true, profiles := [],
        instructions :=
          [ "Config file exists but has errors: Failed to load S3 config from "
              ++ CONFIG_FILE ++ ": " ++ "bad json",
            "Please check the JSON syntax" ] } :=
  (c5_config_info_never_raises (some (Except.error "bad json"))).2 "bad json" rfl

/-- C2: resolving an existing profile fails with a validation error naming the
(first) offending field when its endpoint, access_key, or secret_key is missing,
empty, or begins with `YOUR_`; when all three fields are valid the profile is
returned; and each validation message literally contains the named field. -/
theorem c2_profile_validation {fs : FS} {config : Config} {pn : String} {p : Profile}
    (hfs : fs = some (Except.ok config))
    (hlk : lookupProfile pn config.profiles = some p) :
    (invalidField p.endpoint = true →
      (get_profile fs pn).2 = Except.error (invalidFieldMsg pn "endpoint"))
    ∧ (invalidField p.endpoint = false → invalidField p.access_key = true →
      (get_profile fs pn).2 = Except.error (invalidFieldMsg pn "access_key"))
    ∧ (invalidField p.endpoint = false → invalidField p.access_key = false →
        invalidField p.secret_key = true →
      (get_profile fs pn).2 = Except.error (invalidFieldMsg pn "secret_key"))
    ∧ (invalidField p.endpoint = false → invalidField p.access_key = false →
        invalidField p.secret_key = false →
      get_profile fs pn = (fs, Except.ok p))
    ∧ ∀ f : String, ∃ s t : String, invalidFieldMsg pn f = s ++ (f ++ t) := by
  subst hfs
  refine ⟨?_, ?_, ?_, ?_, ?_⟩
  · intro h1
    simp [get_profile, load_config, hlk, h1]
  · intro h1 h2
    simp [get_profile, load_config, hlk, h1, h2]
  · intro h1 h2 h3
    simp [get_profile, load_config, hlk, h1, h2, h3]
  · intro h1 h2 h3
    simp [get_profile, load_config, hlk, h1, h2, h3]
  · intro f
    refine ⟨"Profile '" ++ pn ++ "' has invalid ", ". Please update " ++ CONFIG_FILE, ?_⟩
    simp [invalidFieldMsg, String.append_assoc]

/-- Witness for C2: a placeholder access key is rejected with the message naming
`access_key`. -/
theorem c2_profile_validation_witness :
    (get_profile (some (Except.ok tBadConfig)) "bad").2
      = Except.error (invalidFieldMsg "bad" "access_key") := by
  have h := c2_profile_validation
    (rfl : (some (Except.ok tBadConfig) : FS) = some (Except.ok tBadConfig))
    (show lookupProfile "bad" tBadConfig.profiles = some tBadProfile by
      simp [tBadConfig, lookupProfile])
  exact h.2.1 (by decide) (by decide)

theorem strStartsWith_append (p r : String) : strStartsWith (p ++ r) p = true := by
  show (p.data.isPrefixOf (p ++ r).data) = true
  rw [String.data_append]
  simp [List.isPrefixOf_iff_prefix]

theorem strDrop_https (rest : String) : strDrop ("https://" ++ rest) 8 = rest := rfl

theorem strDrop_http (rest : String) : strDrop ("http://" ++ rest) 7 = rest := rfl

/-- C6: for a validated profile, the client factory strips a leading `https://` and
sets the security flag to true, strips a leading `http://` and sets it to false, and
for an endpoint with no scheme leaves it unchanged and takes the flag from the
profile's `secure` field (which defaults to true when absent). -/
theorem c6_endpoint_normalization {fs : FS} {config : Config} {pn : String} {p : Profile}
    (hfs : fs = some (Except.ok config))
    (hlk : lookupProfile pn config.profiles = some p)
    (h1 : invalidField p.endpoint = false) (h2 : invalidField p.access_key = false)
    (h3 : invalidField p.secret_key = false) :
    ∃ c : MinioClient, (create_from_profile fs pn).2 = Except.ok (c, p)
      ∧ (∀ rest : String, p.endpoint = some ("https://" ++ rest) →
          c.endpoint = rest ∧ c.secure = true)
      ∧ (∀ rest : String, p.endpoint = some ("http://" ++ rest) →
          c.endpoint = rest ∧ c.secure = false)
      ∧ (strStartsWith (p.endpoint.getD "") "https://" = false →
          strStartsWith (p.endpoint.getD "") "http://" = false →
          c.endpoint = p.endpoint.getD "" ∧ c.secure = p.secure.getD true) := by
  refine ⟨clientOf p, ?_, ?_, ?_, ?_⟩
  · rw [create_from_profile_ok hfs hlk h1 h2 h3]
  · intro rest he
    have hsw := strStartsWith_append "https://" rest
    constructor <;> simp [clientOf, he, hsw, strDrop_https]
  · intro rest he
    have hsw := strStartsWith_append "http://" rest
    have hnot : strStartsWith ("http://" ++ rest) "https://" = false := rfl
    constructor <;> simp [clientOf, he, hsw, hnot, strDrop_http]
  · intro hns hnp
    constructor <;> simp [clientOf, hns, hnp]

/-- Witness for C6 at a scheme-less endpoint with an explicit secure flag. -/
theorem c6_endpoint_normalization_witness :
    ∃ c : MinioClient, (create_from_profile tFS "p").2 = Except.ok (c, tProfile)
      ∧ (∀ rest : String, tProfile.endpoint = some ("https://" ++ rest) →
          c.endpoint = rest ∧ c.secure = true)
      ∧ (∀ rest : String, tProfile.endpoint = some ("http://" ++ rest) →
          c.endpoint = rest ∧ c.secure = false)
      ∧ (strStartsWith (tProfile.endpoint.getD "") "https://" = false →
          strStartsWith (tProfile.endpoint.getD "") "http://" = false →
          c.endpoint = tProfile.endpoint.getD ""
            ∧ c.secure = tProfile.secure.getD true) := by
  have h := c6_endpoint_normalization
    (rfl : tFS = some (Except.ok tConfig))
    (show lookupProfile "p" tConfig.profiles = some tProfile by
      simp [tConfig, lookupProfile])
    (by decide) (by decide) (by decide)
  exact h

/-- C3: listing with cap K (1 ≤ K ≤ 1000) returns at most K entries — precisely the
records of the first K enumerated objects, each carrying the object's name, size,
last-modified timestamp and etag — regardless of how many objects the client
enumerates under the prefix. -/
theorem c3_list_capped {fs : FS} {config : Config} {pn : String} {p : Profile}
    (hfs : fs = some (Except.ok config))
    (hlk : lookupProfile pn config.profiles = some p)
    (h1 : invalidField p.endpoint = false) (h2 : invalidField p.access_key = false)
    (h3 : invalidField p.secret_key = false)
    {b : String} (hb : b ≠ "") (enum : List ObjStat) (pre : String) {K : Nat}
    (hK1 : 1 ≤ K) (hK2 : K ≤ 1000) :
    (list_objects fs enum pn b pre K).result = Except.ok ((enum.take K).map toRecord)
    ∧ ((enum.take K).map toRecord).length ≤ K := by
  have hc := create_from_profile_ok hfs hlk h1 h2 h3
  constructor
  · simp [list_objects, hb, hc, list_loop_take, Nat.sub_zero]
  · simp only [List.length_map, List.length_take]
    omega

/-- Witness for C3: three enumerated objects capped at two. -/
theorem c3_list_capped_witness :
    (list_objects tFS tEnum "p" "b" "" 2).result
      = Except.ok ((tEnum.take 2).map toRecord)
    ∧ ((tEnum.take 2).map toRecord).length ≤ 2 :=
  c3_list_capped (rfl : tFS = some (Except.ok tConfig))
    (show lookupProfile "p" tConfig.profiles = some tProfile by
      simp [tConfig, lookupProfile])
    (by decide) (by decide) (by decide) (by decide) tEnum "" (by decide) (by decide)

/-- C9: a profile whose access_key or secret_key is missing or empty (and neither
credential starts with `YOUR_`) is reported by Config-Info as configured, even
though the profile resolver rejects that same profile. -/
theorem c9_configured_despite_invalid {fs : FS} {config : Config} {pn : String} {p : Profile}
    (hfs : fs = some (Except.ok config))
    (hlk : lookupProfile pn config.profiles = some p)
    (hbad : p.access_key = none ∨ p.access_key = some ""
      ∨ p.secret_key = none ∨ p.secret_key = some "")
    (hak : strStartsWith (p.access_key.getD "") "YOUR_" = false)
    (hsk : strStartsWith (p.secret_key.getD "") "YOUR_" = false) :
    (∃ r, get_config_info fs = Except.ok r
      ∧ ({ profile_name := pn, display_name := p.displayName.getD pn,
           endpoint := p.endpoint.getD "", configured := true } : ProfileInfo) ∈ r.profiles)
    ∧ ∃ e, (get_profile fs pn).2 = Except.error e := by
  subst hfs
  constructor
  · refine ⟨_, rfl, ?_⟩
    have hmem := lookupProfile_mem hlk
    have hpi : profileInfoOf pn p
        = { profile_name := pn, display_name := p.displayName.getD pn,
            endpoint := p.endpoint.getD "", configured := true } := by
      simp [profileInfoOf, hak, hsk]
    rw [← hpi]
    exact List.mem_map_of_mem (fun np => profileInfoOf np.1 np.2) hmem
  · by_cases he : invalidField p.endpoint = true
    · exact ⟨invalidFieldMsg pn "endpoint", by simp [get_profile, load_config, hlk, he]⟩
    · have hef : invalidField p.endpoint = false := by simpa using he
      by_cases ha : invalidField p.access_key = true
      · exact ⟨invalidFieldMsg pn "access_key",
          by simp [get_profile, load_config, hlk, hef, ha]⟩
      · have haf : invalidField p.access_key = false := by simpa using ha
        have hs : invalidField p.secret_key = true := by
          rcases hbad with h | h | h | h
          · rw [h] at haf; simp [invalidField] at haf
          · rw [h] at haf; simp [invalidField] at haf
          · simp [invalidField, h]
          · simp [invalidField, h]
        exact ⟨invalidFieldMsg pn "secret_key",
          by simp [get_profile, load_config, hlk, hef, haf, hs]⟩

/-- Witness for C9: a profile with a missing access_key. -/
theorem c9_configured_despite_invalid_witness :
    (∃ r, get_config_info (some (Except.ok tMissingConfig)) = Except.ok r
      ∧ ({ profile_name := "m", display_name := tMissingProfile.displayName.getD "m",
           endpoint := tMissingProfile.endpoint.getD "",
           configured := true } : ProfileInfo) ∈ r.profiles)
    ∧ ∃ e, (get_profile (some (Except.ok tMissingConfig)) "m").2 = Except.error e :=
  c9_configured_despite_invalid
    (rfl : (some (Except.ok tMissingConfig) : FS) = some (Except.ok tMissingConfig))
    (show lookupProfile "m" tMissingConfig.profiles = some tMissingProfile by
      simp [tMissingConfig, lookupProfile])
    (Or.inl rfl) (by decide) (by decide)

/-- C4: a successful save over N images returns exactly N result records (the list
`json.dumps` serializes), whose object keys are pairwise distinct and built from the
key prefix, the filename prefix, the single per-call timestamp, and the batch index. -/
theorem c4_save_record_batch {fs : FS} {config : Config} {pn : String} {p : Profile}
    (hfs : fs = some (Except.ok config))
    (hlk : lookupProfile pn config.profiles = some p)
    (h1 : invalidField p.endpoint = false) (h2 : invalidField p.access_key = false)
    (h3 : invalidField p.secret_key = false)
    {b : String} (hb : b ≠ "") (w : S3World) (imgs : List ImageT) (pre fnpre cr ts : String) :
    ∃ recs, (save_images fs w imgs pn b pre fnpre cr ts).result = Except.ok recs
      ∧ recs.length = imgs.length
      ∧ (recs.map SaveRecord.object_key).Nodup
      ∧ ∀ i (hi : i < recs.length),
          (recs.get ⟨i, hi⟩).object_key = mkObjectKey pre (mkFilename fnpre ts i)
          ∧ (recs.get ⟨i, hi⟩).timestamp = ts
          ∧ (recs.get ⟨i, hi⟩).batch_number = i := by
  refine ⟨_, save_images_result hfs hlk h1 h2 h3 hb w imgs pre fnpre cr ts, ?_, ?_, ?_⟩
  · simp
  · rw [List.map_map]
    have hinj : Function.Injective
        (SaveRecord.object_key ∘ fun j => saveRecordAt pn b pre fnpre ts p j) := by
      intro i j hij
      exact mkObjectKey_inj hij
    exact List.Nodup.map hinj (List.nodup_range _)
  · intro i hi
    refine ⟨?_, ?_, ?_⟩ <;>
      simp [List.get_eq_getElem, List.getElem_map, List.getElem_range, saveRecordAt]

/-- Witness for C4: a batch of two images. -/
theorem c4_save_record_batch_witness :
    ∃ recs, (save_images tFS emptyWorld [[], []] "p" "b" "pre" "image" "" "ts").result
        = Except.ok recs
      ∧ recs.length = 2
      ∧ (recs.map SaveRecord.object_key).Nodup
      ∧ ∀ i (hi : i < recs.length),
          (recs.get ⟨i, hi⟩).object_key = mkObjectKey "pre" (mkFilename "image" "ts" i)
          ∧ (recs.get ⟨i, hi⟩).timestamp = "ts"
          ∧ (recs.get ⟨i, hi⟩).batch_number = i :=
  c4_save_record_batch (rfl : tFS = some (Except.ok tConfig))
    (show lookupProfile "p" tConfig.profiles = some tProfile by
      simp [tConfig, lookupProfile])
    (by decide) (by decide) (by decide) (by decide) emptyWorld [[], []] "pre" "image" "" "ts"

/-- C10: every object key a save produces is the key prefix with trailing slashes
removed, then `/`, then the generated filename; with an empty key prefix every
object key therefore begins with a leading `/`. -/
theorem c10_object_key_shape {fs : FS} {config : Config} {pn : String} {p : Profile}
    (hfs : fs = some (Except.ok config))
    (hlk : lookupProfile pn config.profiles = some p)
    (h1 : invalidField p.endpoint = false) (h2 : invalidField p.access_key = false)
    (h3 : invalidField p.secret_key = false)
    {b : String} (hb : b ≠ "") (w : S3World) (imgs : List ImageT) (pre fnpre cr ts : String) :
    ∃ recs, (save_images fs w imgs pn b pre fnpre cr ts).result = Except.ok recs
      ∧ ∀ i (hi : i < recs.length),
          (recs.get ⟨i, hi⟩).object_key
              = rstripSlash pre ++ "/" ++ (recs.get ⟨i, hi⟩).filename
          ∧ (pre = "" →
              (recs.get ⟨i, hi⟩).object_key = "/" ++ (recs.get ⟨i, hi⟩).filename) := by
  refine ⟨_, save_images_result hfs hlk h1 h2 h3 hb w imgs pre fnpre cr ts, ?_⟩
  intro i hi
  refine ⟨?_, fun hpre => ?_⟩
  · simp only [List.get_eq_getElem, List.getElem_map, List.getElem_range]
    rfl
  · subst hpre
    simp only [List.get_eq_getElem, List.getElem_map, List.getElem_range]
    rfl

/-- Witness for C10 with an empty key prefix. -/
theorem c10_object_key_shape_witness :
    ∃ recs, (save_images tFS emptyWorld [[]] "p" "b" "" "image" "" "ts").result
        = Except.ok recs
      ∧ ∀ i (hi : i < recs.length),
          (recs.get ⟨i, hi⟩).object_key
              = rstripSlash "" ++ "/" ++ (recs.get ⟨i, hi⟩).filename
          ∧ ("" = "" →
              (recs.get ⟨i, hi⟩).object_key = "/" ++ (recs.get ⟨i, hi⟩).filename) :=
  c10_object_key_shape (rfl : tFS = some (Except.ok tConfig))
    (show lookupProfile "p" tConfig.profiles = some tProfile by
      simp [tConfig, lookupProfile])
    (by decide) (by decide) (by decide) (by decide) emptyWorld [[]] "" "image" "" "ts"

theorem toU8_half : toU8 ((1 : ℚ) / 2) = 127 := by
  unfold toU8
  rw [show (255 : ℚ) * ((1 : ℚ) / 2) = 255 / 2 by norm_num]
  rw [show max ((255 : ℚ) / 2) 0 = 255 / 2 from max_eq_left (by norm_num)]
  rw [show min ((255 : ℚ) / 2) 255 = 255 / 2 from min_eq_left (by norm_num)]
  rw [show Int.floor ((255 : ℚ) / 2) = 127 from by norm_num]
  rfl

/-- C1 (amended): an image saved and loaded back from the same bucket and object key
decodes to the 8-bit quantization of the original, hence — as hypothesized here —
exactly to the original whenever every channel value lies on the 1/255 grid; and the
returned mask is all zeros of the image's height and width, since saved images carry
no alpha channel. -/
theorem c1_roundtrip_exact_on_grid {fs : FS} {config : Config} {pn : String} {p : Profile}
    (hfs : fs = some (Except.ok config))
    (hlk : lookupProfile pn config.profiles = some p)
    (h1 : invalidField p.endpoint = false) (h2 : invalidField p.access_key = false)
    (h3 : invalidField p.secret_key = false)
    {b : String} (hb : b ≠ "") (w : S3World) (imgs : List ImageT) (pre fnpre cr ts : String)
    (i : Nat) (hi : i < imgs.length)
    (hg : ∀ row ∈ imgs.get ⟨i, hi⟩, ∀ q ∈ row, gridPixel q) :
    (load_image (save_images fs w imgs pn b pre fnpre cr ts).fs
        (save_images fs w imgs pn b pre fnpre cr ts).world pn b
        (mkObjectKey pre (mkFilename fnpre ts i))).result
      = Except.ok (imgs.get ⟨i, hi⟩,
          List.replicate (imgs.get ⟨i, hi⟩).length
            (List.replicate ((imgs.get ⟨i, hi⟩).headD []).length (0 : ℚ))) := by
  rw [save_load_roundtrip hfs hlk h1 h2 h3 hb w imgs pre fnpre cr ts i hi,
    quantImage_grid hg]

/-- Witness for C1 at a 1×1 grid-valued image: the loaded pixel equals the original
and the mask is the 1×1 zero matrix. -/
theorem c1_roundtrip_exact_on_grid_witness :
    (load_image (save_images tFS emptyWorld [gimg] "p" "b" "pre" "image" "" "ts").fs
        (save_images tFS emptyWorld [gimg] "p" "b" "pre" "image" "" "ts").world "p" "b"
        (mkObjectKey "pre" (mkFilename "image" "ts" 0))).result
      = Except.ok (gimg, [[(0 : ℚ)]]) :=
  c1_roundtrip_exact_on_grid (rfl : tFS = some (Except.ok tConfig))
    (show lookupProfile "p" tConfig.profiles = some tProfile by
      simp [tConfig, lookupProfile])
    (by decide) (by decide) (by decide) (by decide) emptyWorld [gimg] "pre" "image" "" "ts"
    0 (by decide)
    (by
      intro row hrow q hq
      have hrow2 : row ∈ gimg := hrow
      simp [gimg] at hrow2
      subst hrow2
      simp at hq
      subst hq
      exact ⟨⟨0, by norm_num, by norm_num⟩, ⟨255, by norm_num, by norm_num⟩,
        ⟨128, by norm_num, by norm_num⟩⟩)

/-- Counterexample to C1 as stated: the 1×1 image with channel value 1/2 is saved
and loaded from the same bucket and key, but decodes to 127/255 ≠ 1/2 — the decoded
pixel data is not exactly the original. -/
theorem c1_roundtrip_counterexample :
    (load_image (save_images tFS emptyWorld [cimg] "p" "b" "pre" "image" "" "ts").fs
        (save_images tFS emptyWorld [cimg] "p" "b" "pre" "image" "" "ts").world "p" "b"
        (mkObjectKey "pre" (mkFilename "image" "ts" 0))).result
      = Except.ok ([[((127 : ℚ) / 255, (127 : ℚ) / 255, (127 : ℚ) / 255)]], [[(0 : ℚ)]])
    ∧ ((127 : ℚ) / 255, (127 : ℚ) / 255, (127 : ℚ) / 255)
        ≠ (((1 : ℚ) / 2, (1 : ℚ) / 2, (1 : ℚ) / 2) : Pixel) := by
  constructor
  · have h := save_load_roundtrip (rfl : tFS = some (Except.ok tConfig))
      (show lookupProfile "p" tConfig.profiles = some tProfile by
        simp [tConfig, lookupProfile])
      (by decide) (by decide) (by decide) (show "b" ≠ "" by decide)
      emptyWorld [cimg] "pre" "image" "" "ts" 0 (by decide)
    rw [h]
    simp [cimg, quantImage, quantPixel, quantChan, toU8_half]
    rw [show ((2 : ℚ)⁻¹) = (1 : ℚ) / 2 by norm_num, toU8_half]
    norm_num
  · intro hEq
    have h127 : ((127 : ℚ) / 255) = (1 : ℚ) / 2 := congrArg Prod.fst hEq
    norm_num at h127
